import Mathlib

set_option maxRecDepth 2000

/-!
Verification of the cgptlib redundant partition-table engine (GPT flavour)
and the MTD parameter check, against the behaviours pinned down by
`tests/cgptlib_test.c`.  The engine implementation itself is not shipped in
this tree, so the definitions below are modelled from the specification,
with every behavioural choice cross-checked against the expectations of the
test suite (layouts, masks, error codes, orderings).
-/

namespace Cgptlib

/-! ## Error codes and masks (from gpt.h as used by the tests) -/

def GPT_SUCCESS : Nat := 0
def GPT_ERROR_NO_VALID_KERNEL : Nat := 1
def GPT_ERROR_INVALID_HEADERS : Nat := 2
def GPT_ERROR_INVALID_ENTRIES : Nat := 3
def GPT_ERROR_INVALID_SECTOR_SIZE : Nat := 4
def GPT_ERROR_INVALID_SECTOR_NUMBER : Nat := 5
def GPT_ERROR_INVALID_UPDATE_TYPE : Nat := 6
def GPT_ERROR_CRC_CORRUPTED : Nat := 7
def GPT_ERROR_OUT_OF_REGION : Nat := 8
def GPT_ERROR_START_LBA_OVERLAP : Nat := 9
def GPT_ERROR_END_LBA_OVERLAP : Nat := 10
def GPT_ERROR_DUP_GUID : Nat := 11
def GPT_ERROR_INVALID_FLASH_GEOMETRY : Nat := 12

def MASK_NONE : Nat := 0
def MASK_PRIMARY : Nat := 1
def MASK_SECONDARY : Nat := 2
def MASK_BOTH : Nat := 3

def GPT_MODIFIED_HEADER1 : Nat := 1
def GPT_MODIFIED_HEADER2 : Nat := 2
def GPT_MODIFIED_ENTRIES1 : Nat := 4
def GPT_MODIFIED_ENTRIES2 : Nat := 8

def GPT_UPDATE_ENTRY_TRY : Nat := 1
def GPT_UPDATE_ENTRY_BAD : Nat := 2

/-! ## Checksum adapter

Modelled from the spec: the CRC-32 primitive is an external black box
("used as a black box", out of scope), so it is modelled by an executable
stand-in checksum over the serialized field words.  Nothing below depends
on the particular checksum function, only on concrete evaluation. -/

def crcStep (a b : Nat) : Nat := (a * 16777619 + b + 131) % 4294967296

def crcGo (a : Nat) : List Nat → Nat
  | [] => a
  | b :: rest =>
    let a2 := crcStep a b
    if a2 == 0 then crcGo 0 rest else crcGo a2 rest

def crc32 (bytes : List Nat) : Nat := crcGo 2166136261 bytes

/-! ## Data model (field-level view of the byte layouts in §6 of the spec) -/

structure GptHeader where
  signature : List Nat
  revision : Nat
  size : Nat
  header_crc32 : Nat
  reserved_zero : Nat
  my_lba : Nat
  alternate_lba : Nat
  first_usable_lba : Nat
  last_usable_lba : Nat
  disk_uuid : Nat
  entries_lba : Nat
  number_of_entries : Nat
  size_of_entry : Nat
  entries_crc32 : Nat
deriving Repr, DecidableEq

structure GptEntry where
  type : Nat
  unique : Nat
  starting_lba : Nat
  ending_lba : Nat
  attrs : Nat
deriving Repr, DecidableEq

structure GptData where
  primary_header : GptHeader
  secondary_header : GptHeader
  primary_entries : List GptEntry
  secondary_entries : List GptEntry
  sector_bytes : Nat
  drive_sectors : Nat
  valid_headers : Nat
  valid_entries : Nat
  modified : Nat
  current_kernel : Option Nat
  offered : List Nat
deriving Repr, DecidableEq

def gptHeaderSignature : List Nat := [69, 70, 73, 32, 80, 65, 82, 84]

def GPT_HEADER_REVISION : Nat := 65536

def guidZero : Nat := 0

def guidChromeosKernel : Nat := 1000000001

def guidChromeosRootfs : Nat := 1000000002

def zeroEntry : GptEntry := ⟨0, 0, 0, 0, 0⟩

/-- Serialization of a header for checksum purposes: every field except the
header checksum itself, which is replaced by zero (the spec: "computed with
the checksum field itself zeroed"). -/
def headerCrcBytes (h : GptHeader) : List Nat :=
  h.signature ++ [h.revision, h.size, 0, h.reserved_zero, h.my_lba,
    h.alternate_lba, h.first_usable_lba, h.last_usable_lba, h.disk_uuid,
    h.entries_lba, h.number_of_entries, h.size_of_entry, h.entries_crc32]

/-- Modelled from the spec: HeaderCrc, the header checksum over the header
fields with the checksum field zeroed. -/
def headerCrc (h : GptHeader) : Nat := crc32 (headerCrcBytes h)

def entryBytes (e : GptEntry) : List Nat :=
  [e.type, e.unique, e.starting_lba, e.ending_lba, e.attrs]

/-- Modelled from the spec: the entry-array checksum over the whole
`entry_count * entry_size` span. -/
def entriesCrc (es : List GptEntry) : Nat :=
  crc32 (es.foldr (fun e acc => entryBytes e ++ acc) [])

/-! ## Attribute codec (§4.4; bit layout pinned by EntryAttributeGetSetTest:
priority bits 48-51, tries bits 52-55, successful bit 56 of the 64-bit
attribute word) -/

def getField (a lo w : Nat) : Nat := a / 2 ^ lo % 2 ^ w

def setField (a lo w v : Nat) : Nat :=
  a % 2 ^ lo + v % 2 ^ w * 2 ^ lo + a / 2 ^ (lo + w) * 2 ^ (lo + w)

def getEntrySuccessful (a : Nat) : Nat := getField a 56 1

def getEntryTries (a : Nat) : Nat := getField a 52 4

def getEntryPriority (a : Nat) : Nat := getField a 48 4

def setEntrySuccessful (a v : Nat) : Nat := setField a 56 1 v

def setEntryTries (a v : Nat) : Nat := setField a 52 4 v

def setEntryPriority (a v : Nat) : Nat := setField a 48 4 v

def isUnusedEntry (e : GptEntry) : Bool := e.type == guidZero

def isKernelEntry (e : GptEntry) : Bool := e.type == guidChromeosKernel

/-! ## Header validator (§4.1; inequalities pinned by SignatureTest,
RevisionTest, SizeTest, CrcFieldTest, MyLbaTest,
FirstUsableLbaAndLastUsableLbaTest, SizeOfPartitionEntryTest) -/

def GPT_PMBR_SECTORS : Nat := 1

def GPT_HEADER_SECTORS : Nat := 1

def TOTAL_ENTRIES_SIZE : Nat := 16384

def calculateEntriesSectors (h : GptHeader) : Nat :=
  h.number_of_entries * h.size_of_entry / 512

/-- Modelled from the spec: CheckHeader §4.1, as a Bool.  All checks of one
header copy in isolation.  The reserved field must be zero — pinned by
ReservedFieldsTest, which expects CheckHeader to reject a header whose
reserved field is nonzero even with the checksum refreshed (the spec text
claims otherwise) — while the alternate-copy location is never inspected. -/
def checkHeaderValid (h : GptHeader) (isSecondary : Bool)
    (driveSectors : Nat) : Bool :=
  h.signature == gptHeaderSignature &&
  h.revision == GPT_HEADER_REVISION &&
  92 ≤ h.size && h.size ≤ 512 &&
  h.header_crc32 == headerCrc h &&
  h.reserved_zero == 0 &&
  h.size_of_entry == 128 &&
  h.number_of_entries * h.size_of_entry == TOTAL_ENTRIES_SIZE &&
  (if isSecondary then
    h.my_lba + 1 == driveSectors &&
    h.entries_lba + calculateEntriesSectors h ≤ h.my_lba &&
    h.last_usable_lba < h.entries_lba
  else
    h.my_lba == GPT_PMBR_SECTORS &&
    h.my_lba + GPT_HEADER_SECTORS ≤ h.entries_lba) &&
  GPT_PMBR_SECTORS + GPT_HEADER_SECTORS + calculateEntriesSectors h ≤
    h.first_usable_lba &&
  h.last_usable_lba + GPT_HEADER_SECTORS + calculateEntriesSectors h + 1 ≤
    driveSectors &&
  h.first_usable_lba ≤ h.last_usable_lba

/-- Modelled from the spec: CheckHeader returns 0 when valid, 1 otherwise
("all headers share a single invalid signal"). -/
def checkHeader (h : GptHeader) (isSecondary : Bool)
    (driveSectors : Nat) : Nat :=
  if checkHeaderValid h isSecondary driveSectors then 0 else 1

/-- Modelled from the spec: HeaderFieldsSame compares all header fields
except the copy-specific ones (my_lba, alternate_lba, entries_lba,
header_crc32), as pinned by HeaderSameTest.  Returns true when same. -/
def headerFieldsSame (h1 h2 : GptHeader) : Bool :=
  h1.signature == h2.signature &&
  h1.revision == h2.revision &&
  h1.size == h2.size &&
  h1.reserved_zero == h2.reserved_zero &&
  h1.first_usable_lba == h2.first_usable_lba &&
  h1.last_usable_lba == h2.last_usable_lba &&
  h1.disk_uuid == h2.disk_uuid &&
  h1.number_of_entries == h2.number_of_entries &&
  h1.size_of_entry == h2.size_of_entry &&
  h1.entries_crc32 == h2.entries_crc32

/-! ## Entries validator (§4.2; classification pinned by EntriesCrcTest,
ValidEntryTest, OverlappedPartitionTest, DuplicateUniqueGuidTest) -/

def entryOutOfRegion (e : GptEntry) (h : GptHeader) : Bool :=
  e.starting_lba < h.first_usable_lba ||
  h.last_usable_lba < e.ending_lba ||
  e.ending_lba < e.starting_lba

/-- Modelled from the spec: overlap scan of one active entry against the
other active entries.  An entry whose start falls inside the range of another active
entry reports a start overlap; an entry whose end falls inside the range
of another active entry reports an end overlap (ranges inclusive). -/
def overlapErr (i : Nat) (e : GptEntry) :
    List (Nat × GptEntry) → Option Nat
  | [] => none
  | (j, o) :: rest =>
    if j == i || isUnusedEntry o then overlapErr i e rest
    else if o.starting_lba ≤ e.starting_lba &&
        e.starting_lba ≤ o.ending_lba then
      some GPT_ERROR_START_LBA_OVERLAP
    else if o.starting_lba ≤ e.ending_lba &&
        e.ending_lba ≤ o.ending_lba then
      some GPT_ERROR_END_LBA_OVERLAP
    else overlapErr i e rest

def dupGuid (i : Nat) (e : GptEntry) (all : List (Nat × GptEntry)) : Bool :=
  all.any fun jo => jo.1 != i && jo.2.unique == e.unique

def checkEntriesScan (all : List (Nat × GptEntry)) (h : GptHeader) :
    List (Nat × GptEntry) → Nat
  | [] => GPT_SUCCESS
  | (i, e) :: rest =>
    if isUnusedEntry e then checkEntriesScan all h rest
    else if entryOutOfRegion e h then GPT_ERROR_OUT_OF_REGION
    else
      match overlapErr i e all with
      | some c => c
      | none =>
        if dupGuid i e all then GPT_ERROR_DUP_GUID
        else checkEntriesScan all h rest

/-- Modelled from the spec: CheckEntries §4.2.  CRC first; then, for each
active entry in index order: region containment, overlap against every
other active entry, duplicate unique identifier.  First failure wins. -/
def checkEntries (entries : List GptEntry) (h : GptHeader) : Nat :=
  if entriesCrc entries != h.entries_crc32 then GPT_ERROR_CRC_CORRUPTED
  else
    let all := entries.enum
    checkEntriesScan all h all

/-! ## Parameter checks (§4.3; values pinned by ParameterTests) -/

def GPT_ENTRIES_SECTORS : Nat := 32

/-- Modelled from the spec: CheckParameters.  Only a 512-byte sector is
supported, and the drive must fit PMBR + two headers + two entry arrays. -/
def checkParameters (sectorBytes driveSectors : Nat) : Nat :=
  if sectorBytes != 512 then GPT_ERROR_INVALID_SECTOR_SIZE
  else if driveSectors <
      GPT_PMBR_SECTORS + 2 * GPT_HEADER_SECTORS + 2 * GPT_ENTRIES_SECTORS then
    GPT_ERROR_INVALID_SECTOR_NUMBER
  else GPT_SUCCESS

/-- Flash geometry parameters of the MTD variant. -/
structure MtdParams where
  sector_bytes : Nat
  drive_sectors : Nat
  flash_page_bytes : Nat
  flash_block_bytes : Nat
deriving Repr, DecidableEq

/-- Modelled from the spec: MtdCheckParameters.  The acceptance set is the
one pinned by the ParameterTests table: the flash page byte size must be a
multiple of the sector size, and the flash block byte size a multiple of
the page size (the test accepts page 3*512 with block 9*512, so no
power-of-two constraint is enforced here). -/
def mtdCheckParameters (m : MtdParams) : Nat :=
  if m.sector_bytes != 512 then GPT_ERROR_INVALID_SECTOR_SIZE
  else if m.flash_page_bytes % m.sector_bytes != 0 then
    GPT_ERROR_INVALID_FLASH_GEOMETRY
  else if m.flash_block_bytes % m.flash_page_bytes != 0 then
    GPT_ERROR_INVALID_FLASH_GEOMETRY
  else GPT_SUCCESS

/-! ## Redundancy engine (§4.3; behaviour pinned by SanityCheckTest) -/

/-- Modelled from the spec: GptSanityCheck.  Parameters first; then both
headers are validated individually; when both are valid but their shared
fields disagree, the copy whose own entry array checks out is kept
(primary tried first); the entry arrays are then validated against the
surviving ("authoritative") valid header. -/
def gptSanityCheck (g : GptData) : GptData × Nat :=
  let g0 := { g with valid_headers := MASK_NONE, valid_entries := MASK_NONE }
  let p := checkParameters g.sector_bytes g.drive_sectors
  if p != GPT_SUCCESS then (g0, p)
  else
    let vh1 := checkHeaderValid g.primary_header false g.drive_sectors
    let vh2 := checkHeaderValid g.secondary_header true g.drive_sectors
    let vh := (if vh1 then MASK_PRIMARY else 0) + (if vh2 then MASK_SECONDARY else 0)
    if vh == MASK_NONE then (g0, GPT_ERROR_INVALID_HEADERS)
    else
      let vh :=
        if vh == MASK_BOTH &&
            !headerFieldsSame g.primary_header g.secondary_header then
          if checkEntries g.primary_entries g.primary_header == GPT_SUCCESS then
            MASK_PRIMARY
          else if checkEntries g.secondary_entries g.secondary_header ==
              GPT_SUCCESS then
            MASK_SECONDARY
          else MASK_PRIMARY
        else vh
      let goodhdr :=
        if vh &&& MASK_PRIMARY == MASK_PRIMARY then g.primary_header
        else g.secondary_header
      let ve := (if checkEntries g.primary_entries goodhdr == GPT_SUCCESS
                  then MASK_PRIMARY else 0) +
                (if checkEntries g.secondary_entries goodhdr == GPT_SUCCESS
                  then MASK_SECONDARY else 0)
      let g1 := { g0 with valid_headers := vh, valid_entries := ve }
      if ve == MASK_NONE then (g1, GPT_ERROR_INVALID_ENTRIES)
      else (g1, GPT_SUCCESS)

/-- Patch the copy-specific fields after copying a valid primary header over
the invalid secondary, and recompute its checksum. -/
def patchAsSecondary (h : GptHeader) (driveSectors : Nat) : GptHeader :=
  let h1 := { h with
    my_lba := driveSectors - 1,
    alternate_lba := GPT_PMBR_SECTORS,
    entries_lba := driveSectors - 1 - calculateEntriesSectors h }
  { h1 with header_crc32 := headerCrc h1 }

/-- Patch the copy-specific fields after copying a valid secondary header
over the invalid primary, and recompute its checksum. -/
def patchAsPrimary (h : GptHeader) (driveSectors : Nat) : GptHeader :=
  let h1 := { h with
    my_lba := GPT_PMBR_SECTORS,
    alternate_lba := driveSectors - 1,
    entries_lba := GPT_PMBR_SECTORS + GPT_HEADER_SECTORS }
  { h1 with header_crc32 := headerCrc h1 }

/-- Modelled from the spec: GptRepair §4.3.  Applied independently to the
header pair and the entries pair: with exactly one valid copy the invalid
one is overwritten from it (patching copy-specific fields) and the matching
modified bit is recorded; with both valid or both invalid nothing happens. -/
def gptRepair (g : GptData) : GptData :=
  let g1 :=
    if g.valid_headers == MASK_PRIMARY then
      { g with
        secondary_header := patchAsSecondary g.primary_header g.drive_sectors,
        valid_headers := MASK_BOTH,
        modified := g.modified ||| GPT_MODIFIED_HEADER2 }
    else if g.valid_headers == MASK_SECONDARY then
      { g with
        primary_header := patchAsPrimary g.secondary_header g.drive_sectors,
        valid_headers := MASK_BOTH,
        modified := g.modified ||| GPT_MODIFIED_HEADER1 }
    else g
  if g1.valid_entries == MASK_PRIMARY then
    { g1 with
      secondary_entries := g1.primary_entries,
      valid_entries := MASK_BOTH,
      modified := g1.modified ||| GPT_MODIFIED_ENTRIES2 }
  else if g1.valid_entries == MASK_SECONDARY then
    { g1 with
      primary_entries := g1.secondary_entries,
      valid_entries := MASK_BOTH,
      modified := g1.modified ||| GPT_MODIFIED_ENTRIES1 }
  else g1

/-! ## Kernel selection state machine (§4.5; behaviour pinned by
GetNextNormalTest, GetNextPrioTest, GetNextTriesTest,
NoValidKernelEntryTest: an entry with priority 0 is never offered) -/

def entryAt (g : GptData) (i : Nat) : GptEntry :=
  g.primary_entries.getD i zeroEntry

/-- Selection candidates: kernel-type entries that are active for selection
(successful, or tries remaining), carry a nonzero priority, and have not
been offered yet in this session. -/
def candidateIdxs (g : GptData) : List Nat :=
  (List.range g.primary_entries.length).filter fun i =>
    isKernelEntry (entryAt g i) &&
    (getEntrySuccessful (entryAt g i).attrs == 1 ||
      0 < getEntryTries (entryAt g i).attrs) &&
    0 < getEntryPriority (entryAt g i).attrs &&
    !(g.offered.contains i)

/-- Pick the candidate of maximum priority; the strict comparison keeps the
earlier (lower) index on ties. -/
def pickBest (g : GptData) (l : List Nat) : Option Nat :=
  l.foldl (fun best i =>
    match best with
    | none => some i
    | some b =>
      if getEntryPriority (entryAt g b).attrs <
          getEntryPriority (entryAt g i).attrs then some i else some b) none

/-- Modelled from the spec: GptNextKernelEntry §4.5.  Returns the new state
together with `some (index, start, size)` for a found kernel, or `none`
for the GPT_ERROR_NO_VALID_KERNEL outcome (current_kernel is then the
not-found sentinel). -/
def gptNextKernelEntry (g : GptData) : GptData × Option (Nat × Nat × Nat) :=
  match pickBest g (candidateIdxs g) with
  | some i =>
    let e := entryAt g i
    ({ g with current_kernel := some i, offered := i :: g.offered },
      some (i, e.starting_lba, e.ending_lba - e.starting_lba + 1))
  | none => ({ g with current_kernel := none }, none)

/-! ## Kernel entry update (§4.5; behaviour pinned by GptUpdateTest) -/

/-- Recompute the entries checksum a header advertises, and then the header
checksum, after an entry array changed under it. -/
def refreshHeaderFor (h : GptHeader) (es : List GptEntry) : GptHeader :=
  let h1 := { h with entries_crc32 := entriesCrc es }
  { h1 with header_crc32 := headerCrc h1 }

/-- Commit a new attribute word for entry `i` into both entry copies, and
refresh both headers, marking everything modified; a no-op change leaves
the table untouched. -/
def applyEntryAttrs (g : GptData) (i : Nat) (a : Nat) : GptData × Nat :=
  let e := entryAt g i
  if a == e.attrs then (g, GPT_SUCCESS)
  else
    let p := g.primary_entries.set i { e with attrs := a }
    let s := g.secondary_entries.set i
      { g.secondary_entries.getD i zeroEntry with attrs := a }
    ({ g with
        primary_entries := p,
        secondary_entries := s,
        primary_header := refreshHeaderFor g.primary_header p,
        secondary_header := refreshHeaderFor g.secondary_header s,
        modified := g.modified ||| (GPT_MODIFIED_HEADER1 |||
          GPT_MODIFIED_HEADER2 ||| GPT_MODIFIED_ENTRIES1 |||
          GPT_MODIFIED_ENTRIES2) }, GPT_SUCCESS)

/-- Modelled from the spec: GptUpdateKernelEntry §4.5.  TRY: a successful
entry is untouched; else a remaining try is consumed, and consuming the
last one also clears the priority.  BAD: a successful entry is untouched;
else successful, tries and priority are all cleared.  Mutations are applied
identically to both entry copies. -/
def gptUpdateKernelEntry (g : GptData) (updateType : Nat) : GptData × Nat :=
  match g.current_kernel with
  | none => (g, GPT_ERROR_INVALID_UPDATE_TYPE)
  | some i =>
    let e := entryAt g i
    if !isKernelEntry e then (g, GPT_ERROR_INVALID_UPDATE_TYPE)
    else if updateType == GPT_UPDATE_ENTRY_TRY then
      let a := e.attrs
      let a1 :=
        if getEntrySuccessful a == 1 then a
        else if 0 < getEntryTries a then
          let t := getEntryTries a - 1
          let a2 := setEntryTries a t
          if t == 0 then setEntryPriority a2 0 else a2
        else a
      applyEntryAttrs g i a1
    else if updateType == GPT_UPDATE_ENTRY_BAD then
      let a := e.attrs
      let a1 :=
        if getEntrySuccessful a == 1 then a
        else setEntryPriority (setEntryTries (setEntrySuccessful a 0) 0) 0
      applyEntryAttrs g i a1
    else (g, GPT_ERROR_INVALID_UPDATE_TYPE)

/-! ## The test partition layout (BuildTestGptData in cgptlib_test.c):
512-byte sectors, 467 sectors, primary header at LBA 1, primary entries at
LBA 2, usable region 34..433, secondary entries at LBA 434, secondary
header at LBA 466; four populated entries. -/

def DEFAULT_DRIVE_SECTORS : Nat := 467

/-- Distinct nonzero unique GUIDs for the test entries (SetGuid in the
tests: the number completely determines the GUID). -/
def testGuid (n : Nat) : Nat := 2000000000 + n

def defaultTestEntries : List GptEntry :=
  [⟨guidChromeosKernel, testGuid 0, 34, 133, 0⟩,
   ⟨guidChromeosRootfs, testGuid 1, 134, 232, 0⟩,
   ⟨guidChromeosRootfs, testGuid 2, 234, 331, 0⟩,
   ⟨guidChromeosKernel, testGuid 3, 334, 430, 0⟩] ++
  List.replicate 124 zeroEntry

/-- Both headers of the test layout, parameterized by the entry arrays they
must advertise (RefreshCrc32 in the tests recomputes both checksums). -/
def buildTestHeader (myLba altLba entriesLba : Nat)
    (es : List GptEntry) : GptHeader :=
  let h : GptHeader :=
    { signature := gptHeaderSignature
      revision := GPT_HEADER_REVISION
      size := 92
      header_crc32 := 0
      reserved_zero := 0
      my_lba := myLba
      alternate_lba := altLba
      first_usable_lba := 34
      last_usable_lba := 433
      disk_uuid := 0
      entries_lba := entriesLba
      number_of_entries := 128
      size_of_entry := 128
      entries_crc32 := entriesCrc es }
  { h with header_crc32 := headerCrc h }

/-- Build a valid test table around the given primary/secondary entry
arrays (BuildTestGptData followed by RefreshCrc32). -/
def buildGptAround (p s : List GptEntry) : GptData :=
  { primary_header := buildTestHeader 1 466 2 p
    secondary_header := buildTestHeader 466 1 434 s
    primary_entries := p
    secondary_entries := s
    sector_bytes := 512
    drive_sectors := DEFAULT_DRIVE_SECTORS
    valid_headers := MASK_BOTH
    valid_entries := MASK_BOTH
    modified := 0
    current_kernel := none
    offered := [] }

def buildTestGptData : GptData :=
  buildGptAround defaultTestEntries defaultTestEntries

/-- Attribute word written by FillEntry: priority, successful and tries set
through the codec on a zero background. -/
def mkAttrs (priority successful tries : Nat) : Nat :=
  setEntryTries (setEntrySuccessful (setEntryPriority 0 priority) successful)
    tries

/-- Replace the type and attribute word of entry `i`, as FillEntry does
(kernel type), keeping its location and unique GUID. -/
def fillKernel (es : List GptEntry) (i priority successful tries : Nat) :
    List GptEntry :=
  es.set i { es.getD i zeroEntry with
    type := guidChromeosKernel, attrs := mkAttrs priority successful tries }

/-- Build the test table whose four populated entries are all kernels with
the given (priority, successful, tries) triples, mirrored in both copies. -/
def buildKernelTable
    (a b x y : Nat × Nat × Nat) : GptData :=
  let es :=
    fillKernel (fillKernel (fillKernel (fillKernel defaultTestEntries
      0 a.1 a.2.1 a.2.2) 1 b.1 b.2.1 b.2.2) 2 x.1 x.2.1 x.2.2)
      3 y.1 y.2.1 y.2.2
  buildGptAround es es

/-- State with the two validity bitmasks replaced. -/
def withMasks (g : GptData) (vh ve : Nat) : GptData :=
  { g with valid_headers := vh, valid_entries := ve }

/-! ## The kernel-selection session: iterated NextKernelEntry calls.
sessionState g k is the table state after k calls; sessionResult g k is what
the (k+1)-th call returns (none models GPT_ERROR_NO_VALID_KERNEL). -/

def sessionState (g : GptData) : Nat → GptData
  | 0 => g
  | k + 1 => (gptNextKernelEntry (sessionState g k)).1

def sessionResult (g : GptData) (k : Nat) : Option (Nat × Nat × Nat) :=
  (gptNextKernelEntry (sessionState g k)).2

/-! ## Concrete corruption scenarios from SanityCheckTest and friends -/

/-- Corrupt the first signature byte, as `gpt->primary_header[0]++` does in
the tests (69 is the byte of "E"). -/
def corruptSignature (h : GptHeader) : GptHeader :=
  { h with signature := [70, 70, 73, 32, 80, 65, 82, 84] }

/-- Change a byte of the first entry, as `entries[0]++`-style corruption. -/
def corruptFirstEntry (es : List GptEntry) : List GptEntry :=
  es.set 0 { es.getD 0 zeroEntry with unique := 777 }

/-- Test table whose header-1 copy is corrupted; header-2 and both entry
arrays are intact. -/
def header1CorruptTable : GptData :=
  { buildTestGptData with
    primary_header := corruptSignature buildTestGptData.primary_header }

/-- Test table with both header copies corrupted. -/
def bothHeadersCorruptTable : GptData :=
  { buildTestGptData with
    primary_header := corruptSignature buildTestGptData.primary_header,
    secondary_header := corruptSignature buildTestGptData.secondary_header }

/-- Partial-update table: header-1/entries-1 and header-2/entries-2 are each
self-consistent (checksums refreshed on both sides) but the secondary entry
array differs from the primary. -/
def mismatchedPairTable : GptData :=
  buildGptAround defaultTestEntries (corruptFirstEntry defaultTestEntries)

/-- GetNextPrioTest table: kernels A, B, X, Y at indices 0, 1, 2, 3 with
priorities 3, 4, 0, 4, all successful. -/
def prioTable : GptData :=
  buildKernelTable (3, 1, 0) (4, 1, 0) (0, 1, 0) (4, 1, 0)

/-- GetNextTriesTest table: A (priority 2, successful), B (priority 3, not
successful, no tries), X (priority 4, one try), Y (priority 0, five tries). -/
def triesTable : GptData :=
  buildKernelTable (2, 1, 0) (3, 0, 0) (4, 0, 1) (0, 0, 5)

/-- GptUpdateTest table: A successful at priority 4, B with two tries at
priority 3, X with two tries at priority 2. -/
def updateTable : GptData :=
  buildGptAround
    (fillKernel (fillKernel (fillKernel defaultTestEntries 0 4 1 0)
      1 3 0 2) 2 2 0 2)
    (fillKernel (fillKernel (fillKernel defaultTestEntries 0 4 1 0)
      1 3 0 2) 2 2 0 2)

/-- The update table with the kernel at index 1 (B) current. -/
def updateTableAtB : GptData := { updateTable with current_kernel := some 1 }

/-- The update table with the kernel at index 2 (X) current. -/
def updateTableAtX : GptData := { updateTable with current_kernel := some 2 }

/-- A two-entry layout for the overlap scenarios of OverlappedPartitionTest:
both ranges are placed in the usable region of the test headers. -/
def overlapPairTable (active1 : Bool) (s1 e1 : Nat) (active2 : Bool)
    (s2 e2 : Nat) : GptData :=
  let es : List GptEntry :=
    [⟨if active1 then guidChromeosKernel else 0, testGuid 0, s1, e1, 0⟩,
     ⟨if active2 then guidChromeosKernel else 0, testGuid 1, s2, e2, 0⟩] ++
    List.replicate 126 zeroEntry
  buildGptAround es es

/-! ## Helper lemmas about the attribute codec -/

theorem two_pow_pos' (n : Nat) : 0 < 2 ^ n := Nat.pos_pow_of_pos n (by omega)

theorem getField_setField_same (a v lo w : Nat) :
    getField (setField a lo w v) lo w = v % 2 ^ w := by
  unfold getField setField
  have e1 : a % 2 ^ lo + v % 2 ^ w * 2 ^ lo + a / 2 ^ (lo + w) * 2 ^ (lo + w)
      = a % 2 ^ lo + 2 ^ lo * (v % 2 ^ w + 2 ^ w * (a / 2 ^ (lo + w))) := by
    rw [pow_add]; ring
  rw [e1, Nat.add_mul_div_left _ _ (two_pow_pos' lo),
    Nat.div_eq_of_lt (Nat.mod_lt _ (two_pow_pos' lo)), Nat.zero_add,
    Nat.mul_comm, Nat.add_mul_mod_self_right, Nat.mod_mod_of_dvd _ dvd_rfl]

theorem getField_eq_mod_div (x lo w : Nat) :
    getField x lo w = x % (2 ^ lo * 2 ^ w) / 2 ^ lo :=
  (Nat.mod_mul_right_div_self x (2 ^ lo) (2 ^ w)).symm

theorem getField_congr_mod {x y lo w M : Nat} (h : lo + w ≤ M)
    (hmod : x % 2 ^ M = y % 2 ^ M) : getField x lo w = getField y lo w := by
  rw [getField_eq_mod_div, getField_eq_mod_div, ← pow_add]
  have hd : (2 : Nat) ^ (lo + w) ∣ 2 ^ M := Nat.pow_dvd_pow 2 h
  rw [← Nat.mod_mod_of_dvd x hd, hmod, Nat.mod_mod_of_dvd y hd]

theorem setField_mod_low (a v lo w : Nat) :
    setField a lo w v % 2 ^ lo = a % 2 ^ lo := by
  unfold setField
  have e1 : a % 2 ^ lo + v % 2 ^ w * 2 ^ lo + a / 2 ^ (lo + w) * 2 ^ (lo + w)
      = a % 2 ^ lo + (v % 2 ^ w + 2 ^ w * (a / 2 ^ (lo + w))) * 2 ^ lo := by
    rw [pow_add]; ring
  rw [e1, Nat.add_mul_mod_self_right, Nat.mod_mod_of_dvd _ dvd_rfl]

/-- Setting a field does not disturb a field that lies entirely below it. -/
theorem getField_setField_below {lo1 w1 lo2 : Nat} (w2 : Nat)
    (h : lo1 + w1 ≤ lo2) (a v : Nat) :
    getField (setField a lo2 w2 v) lo1 w1 = getField a lo1 w1 :=
  getField_congr_mod h (setField_mod_low a v lo2 w2)

/-- Setting a field does not disturb a field that lies entirely above it. -/
theorem getField_setField_above {lo1 lo2 w2 : Nat} (w1 : Nat)
    (h : lo2 + w2 ≤ lo1) (a v : Nat) :
    getField (setField a lo2 w2 v) lo1 w1 = getField a lo1 w1 := by
  suffices hdiv : setField a lo2 w2 v / 2 ^ lo1 = a / 2 ^ lo1 by
    unfold getField; rw [hdiv]
  obtain ⟨d, rfl⟩ : ∃ d, lo1 = lo2 + w2 + d := ⟨lo1 - (lo2 + w2), by omega⟩
  rw [pow_add, ← Nat.div_div_eq_div_mul, ← Nat.div_div_eq_div_mul]
  congr 1
  unfold setField
  have hm1 : a % 2 ^ lo2 < 2 ^ lo2 := Nat.mod_lt _ (two_pow_pos' lo2)
  have hm2 : v % 2 ^ w2 < 2 ^ w2 := Nat.mod_lt _ (two_pow_pos' w2)
  have hsmall : a % 2 ^ lo2 + v % 2 ^ w2 * 2 ^ lo2 < 2 ^ (lo2 + w2) := by
    have h2 : v % 2 ^ w2 * 2 ^ lo2 ≤ (2 ^ w2 - 1) * 2 ^ lo2 :=
      Nat.mul_le_mul_right _ (by omega)
    have h3 : 2 ^ lo2 + (2 ^ w2 - 1) * 2 ^ lo2 = 2 ^ (lo2 + w2) := by
      have h4 : 1 + (2 ^ w2 - 1) = 2 ^ w2 := by
        have := two_pow_pos' w2; omega
      calc 2 ^ lo2 + (2 ^ w2 - 1) * 2 ^ lo2
          = (1 + (2 ^ w2 - 1)) * 2 ^ lo2 := by ring
        _ = 2 ^ w2 * 2 ^ lo2 := by rw [h4]
        _ = 2 ^ (lo2 + w2) := by rw [pow_add]; ring
    omega
  have e1 : a % 2 ^ lo2 + v % 2 ^ w2 * 2 ^ lo2 +
      a / 2 ^ (lo2 + w2) * 2 ^ (lo2 + w2)
      = a % 2 ^ lo2 + v % 2 ^ w2 * 2 ^ lo2 +
        2 ^ (lo2 + w2) * (a / 2 ^ (lo2 + w2)) := by ring
  rw [e1, Nat.add_mul_div_left _ _ (two_pow_pos' (lo2 + w2)),
    Nat.div_eq_of_lt hsmall, Nat.zero_add]

theorem getTries_setTries (a v : Nat) :
    getEntryTries (setEntryTries a v) = v % 16 :=
  getField_setField_same a v 52 4

theorem getPriority_setPriority (a v : Nat) :
    getEntryPriority (setEntryPriority a v) = v % 16 :=
  getField_setField_same a v 48 4

theorem getSuccessful_setSuccessful (a v : Nat) :
    getEntrySuccessful (setEntrySuccessful a v) = v % 2 :=
  getField_setField_same a v 56 1

theorem getPriority_setTries (a v : Nat) :
    getEntryPriority (setEntryTries a v) = getEntryPriority a :=
  getField_setField_below 4 (by omega) a v

theorem getSuccessful_setTries (a v : Nat) :
    getEntrySuccessful (setEntryTries a v) = getEntrySuccessful a :=
  getField_setField_above 1 (by omega) a v

theorem getTries_setPriority (a v : Nat) :
    getEntryTries (setEntryPriority a v) = getEntryTries a :=
  getField_setField_above 4 (by omega) a v

theorem getSuccessful_setPriority (a v : Nat) :
    getEntrySuccessful (setEntryPriority a v) = getEntrySuccessful a :=
  getField_setField_above 1 (by omega) a v

theorem getTries_setSuccessful (a v : Nat) :
    getEntryTries (setEntrySuccessful a v) = getEntryTries a :=
  getField_setField_below 1 (by omega) a v

theorem getPriority_setSuccessful (a v : Nat) :
    getEntryPriority (setEntrySuccessful a v) = getEntryPriority a :=
  getField_setField_below 1 (by omega) a v

/-! ## Helper lemmas about lists -/

theorem getD_set_self {α : Type} {l : List α} {i : Nat} (h : i < l.length)
    (x d : α) : (l.set i x).getD i d = x := by
  rw [List.getD_eq_getElem?_getD, List.getElem?_set_self h]; rfl

theorem set_ne_of_getD_ne {l : List GptEntry} {i : Nat}
    (h : i < l.length) {x : GptEntry} (hne : x ≠ l.getD i zeroEntry) :
    l.set i x ≠ l := by
  intro heq
  apply hne
  have h1 := getD_set_self h x zeroEntry
  rw [heq] at h1
  exact h1.symm

theorem length_filter_lt_of_mem {α : Type} {l : List α} {j : α}
    (hj : j ∈ l) {p : α → Bool} (hp : p j = false) :
    (l.filter p).length < l.length := by
  induction l with
  | nil => cases hj
  | cons x xs ih =>
    rcases List.mem_cons.mp hj with rfl | hmem
    · rw [List.filter_cons, hp]
      exact Nat.lt_succ_of_le (List.length_filter_le p xs)
    · rw [List.filter_cons]
      cases hpx : p x
      · exact Nat.lt_succ_of_lt (ih hmem)
      · simpa using Nat.succ_lt_succ (ih hmem)


/-! ## Behaviour of the update operation -/

theorem getField_lt (a lo w : Nat) : getField a lo w < 2 ^ w :=
  Nat.mod_lt _ (two_pow_pos' w)

theorem isKernelEntry_lt {g : GptData} {i : Nat}
    (h : isKernelEntry (entryAt g i) = true) :
    i < g.primary_entries.length := by
  by_contra hge
  rw [entryAt, List.getD_eq_default _ _ (by omega)] at h
  simp [isKernelEntry, guidChromeosKernel, zeroEntry] at h

theorem applyEntryAttrs_spec (g : GptData) (i a : Nat)
    (hmir : g.secondary_entries = g.primary_entries)
    (hlt : i < g.primary_entries.length) :
    (applyEntryAttrs g i a).1.secondary_entries =
      (applyEntryAttrs g i a).1.primary_entries ∧
    ((applyEntryAttrs g i a).1.primary_entries = g.primary_entries →
      (applyEntryAttrs g i a).1.modified = g.modified) ∧
    ((applyEntryAttrs g i a).1.primary_entries ≠ g.primary_entries →
      (applyEntryAttrs g i a).1.modified = g.modified ||| 15) := by
  cases hEq : (a == (entryAt g i).attrs) with
  | true =>
    have hres : applyEntryAttrs g i a = (g, GPT_SUCCESS) := by
      simp [applyEntryAttrs, hEq]
    rw [hres]
    exact ⟨hmir, fun _ => rfl, fun h => absurd rfl h⟩
  | false =>
    have hne : a ≠ (entryAt g i).attrs := by simpa using hEq
    have hne2 : ({ entryAt g i with attrs := a } : GptEntry) ≠ entryAt g i := by
      intro h
      exact hne (congrArg GptEntry.attrs h)
    have hset : g.primary_entries.set i { entryAt g i with attrs := a } ≠
        g.primary_entries := set_ne_of_getD_ne hlt hne2
    refine ⟨?_, ?_, ?_⟩
    · simp only [applyEntryAttrs, hEq, Bool.false_eq_true, if_false]
      simp [hmir, entryAt]
    · intro hp
      simp only [applyEntryAttrs, hEq, Bool.false_eq_true, if_false] at hp
      exact absurd hp hset
    · intro _
      simp only [applyEntryAttrs, hEq, Bool.false_eq_true, if_false]
      rfl

theorem applyEntryAttrs_changed (g : GptData) (i a : Nat)
    (hlt : i < g.primary_entries.length)
    (hmir : g.secondary_entries = g.primary_entries)
    (hne : a ≠ (entryAt g i).attrs) :
    entryAt (applyEntryAttrs g i a).1 i = { entryAt g i with attrs := a } ∧
    (applyEntryAttrs g i a).1.secondary_entries.getD i zeroEntry =
      { entryAt g i with attrs := a } ∧
    (applyEntryAttrs g i a).1.current_kernel = g.current_kernel ∧
    (applyEntryAttrs g i a).1.secondary_entries =
      (applyEntryAttrs g i a).1.primary_entries := by
  have hEq : (a == (entryAt g i).attrs) = false := by simpa using hne
  simp only [applyEntryAttrs, hEq, Bool.false_eq_true, if_false]
  refine ⟨?_, ?_, by trivial, ?_⟩
  · simp only [entryAt]
    rw [getD_set_self (by simpa using hlt)]
  · simp only [hmir, entryAt]
    rw [getD_set_self (by simpa using hlt)]
  · simp [hmir, entryAt]

theorem update_try_spec (g : GptData) (i n : Nat)
    (hc : g.current_kernel = some i)
    (hk : isKernelEntry (entryAt g i) = true)
    (hmir : g.secondary_entries = g.primary_entries)
    (hs0 : getEntrySuccessful (entryAt g i).attrs = 0)
    (ht : getEntryTries (entryAt g i).attrs = n + 1) :
    (gptUpdateKernelEntry g GPT_UPDATE_ENTRY_TRY).1.current_kernel = some i ∧
    (gptUpdateKernelEntry g GPT_UPDATE_ENTRY_TRY).1.secondary_entries =
      (gptUpdateKernelEntry g GPT_UPDATE_ENTRY_TRY).1.primary_entries ∧
    isKernelEntry (entryAt (gptUpdateKernelEntry g GPT_UPDATE_ENTRY_TRY).1 i)
      = true ∧
    getEntrySuccessful
      (entryAt (gptUpdateKernelEntry g GPT_UPDATE_ENTRY_TRY).1 i).attrs = 0 ∧
    getEntryTries
      (entryAt (gptUpdateKernelEntry g GPT_UPDATE_ENTRY_TRY).1 i).attrs = n ∧
    getEntryPriority
      (entryAt (gptUpdateKernelEntry g GPT_UPDATE_ENTRY_TRY).1 i).attrs =
      (if n = 0 then 0
       else getEntryPriority (entryAt g i).attrs) := by
  have hlt := isKernelEntry_lt hk
  have hn14 : n < 15 := by
    have := getField_lt (entryAt g i).attrs 52 4
    rw [getEntryTries] at ht
    omega
  have hsuccF : (getEntrySuccessful (entryAt g i).attrs == 1) = false := by
    simp [hs0]
  have htPos : (0 < getEntryTries (entryAt g i).attrs) = True := by
    simp [ht]
  by_cases hn : n = 0
  · subst hn
    have ha1eq : (gptUpdateKernelEntry g GPT_UPDATE_ENTRY_TRY) =
        applyEntryAttrs g i
          (setEntryPriority (setEntryTries (entryAt g i).attrs 0) 0) := by
      simp [gptUpdateKernelEntry, hc, hk, hsuccF, ht]
    have hne : setEntryPriority (setEntryTries (entryAt g i).attrs 0) 0 ≠
        (entryAt g i).attrs := by
      intro h
      have := congrArg getEntryTries h
      rw [getTries_setPriority, getTries_setTries] at this
      omega
    obtain ⟨h1, h2, h3, h4⟩ := applyEntryAttrs_changed g i _ hlt hmir hne
    rw [ha1eq] at *
    refine ⟨by rw [h3, hc], h4, ?_, ?_, ?_, ?_⟩
    · rw [h1]; simpa [isKernelEntry] using hk
    · rw [h1]
      show getEntrySuccessful (setEntryPriority (setEntryTries _ 0) 0) = 0
      rw [getSuccessful_setPriority, getSuccessful_setTries, hs0]
    · rw [h1]
      show getEntryTries (setEntryPriority (setEntryTries _ 0) 0) = 0
      rw [getTries_setPriority, getTries_setTries]
    · rw [h1]
      show getEntryPriority (setEntryPriority (setEntryTries _ 0) 0) = 0
      rw [getPriority_setPriority]
  · have ha1eq : (gptUpdateKernelEntry g GPT_UPDATE_ENTRY_TRY) =
        applyEntryAttrs g i (setEntryTries (entryAt g i).attrs n) := by
      simp [gptUpdateKernelEntry, hc, hk, hsuccF, ht, hn]
    have hne : setEntryTries (entryAt g i).attrs n ≠ (entryAt g i).attrs := by
      intro h
      have := congrArg getEntryTries h
      rw [getTries_setTries, Nat.mod_eq_of_lt (by omega)] at this
      omega
    obtain ⟨h1, h2, h3, h4⟩ := applyEntryAttrs_changed g i _ hlt hmir hne
    rw [ha1eq] at *
    refine ⟨by rw [h3, hc], h4, ?_, ?_, ?_, ?_⟩
    · rw [h1]; simpa [isKernelEntry] using hk
    · rw [h1]
      show getEntrySuccessful (setEntryTries _ n) = 0
      rw [getSuccessful_setTries, hs0]
    · rw [h1]
      show getEntryTries (setEntryTries _ n) = n
      rw [getTries_setTries, Nat.mod_eq_of_lt (by omega)]
    · rw [h1]
      show getEntryPriority (setEntryTries _ n) = _
      rw [getPriority_setTries, if_neg hn]

theorem update_noop_of_successful (g : GptData) (i t : Nat)
    (hc : g.current_kernel = some i)
    (hk : isKernelEntry (entryAt g i) = true)
    (hs1 : getEntrySuccessful (entryAt g i).attrs = 1)
    (ht : t = GPT_UPDATE_ENTRY_TRY ∨ t = GPT_UPDATE_ENTRY_BAD) :
    gptUpdateKernelEntry g t = (g, GPT_SUCCESS) := by
  have hsuccT : (getEntrySuccessful (entryAt g i).attrs == 1) = true := by
    simp [hs1]
  rcases ht with rfl | rfl
  · simp [gptUpdateKernelEntry, hc, hk, hsuccT, applyEntryAttrs,
      GPT_UPDATE_ENTRY_TRY, GPT_UPDATE_ENTRY_BAD]
  · simp [gptUpdateKernelEntry, hc, hk, hsuccT, applyEntryAttrs,
      GPT_UPDATE_ENTRY_TRY, GPT_UPDATE_ENTRY_BAD]

theorem update_bad_spec (g : GptData) (i : Nat)
    (hc : g.current_kernel = some i)
    (hk : isKernelEntry (entryAt g i) = true)
    (hmir : g.secondary_entries = g.primary_entries)
    (hs0 : getEntrySuccessful (entryAt g i).attrs = 0) :
    getEntrySuccessful
      (entryAt (gptUpdateKernelEntry g GPT_UPDATE_ENTRY_BAD).1 i).attrs = 0 ∧
    getEntryTries
      (entryAt (gptUpdateKernelEntry g GPT_UPDATE_ENTRY_BAD).1 i).attrs = 0 ∧
    getEntryPriority
      (entryAt (gptUpdateKernelEntry g GPT_UPDATE_ENTRY_BAD).1 i).attrs = 0 ∧
    getEntrySuccessful
      ((gptUpdateKernelEntry g GPT_UPDATE_ENTRY_BAD).1.secondary_entries.getD
        i zeroEntry).attrs = 0 ∧
    getEntryTries
      ((gptUpdateKernelEntry g GPT_UPDATE_ENTRY_BAD).1.secondary_entries.getD
        i zeroEntry).attrs = 0 ∧
    getEntryPriority
      ((gptUpdateKernelEntry g GPT_UPDATE_ENTRY_BAD).1.secondary_entries.getD
        i zeroEntry).attrs = 0 := by
  have hlt := isKernelEntry_lt hk
  have hsuccF : (getEntrySuccessful (entryAt g i).attrs == 1) = false := by
    simp [hs0]
  have ha1eq : (gptUpdateKernelEntry g GPT_UPDATE_ENTRY_BAD) =
      applyEntryAttrs g i
        (setEntryPriority (setEntryTries
          (setEntrySuccessful (entryAt g i).attrs 0) 0) 0) := by
    simp [gptUpdateKernelEntry, hc, hk, hsuccF, GPT_UPDATE_ENTRY_TRY,
      GPT_UPDATE_ENTRY_BAD]
  have hfield : ∀ b : Nat,
      b = setEntryPriority (setEntryTries
        (setEntrySuccessful (entryAt g i).attrs 0) 0) 0 →
      getEntrySuccessful b = 0 ∧ getEntryTries b = 0 ∧
        getEntryPriority b = 0 := by
    intro b hb
    subst hb
    refine ⟨?_, ?_, ?_⟩
    · rw [getSuccessful_setPriority, getSuccessful_setTries,
        getSuccessful_setSuccessful]
    · rw [getTries_setPriority, getTries_setTries]
    · rw [getPriority_setPriority]
  obtain ⟨hf1, hf2, hf3⟩ := hfield _ rfl
  rw [ha1eq]
  cases hEq : (setEntryPriority (setEntryTries
      (setEntrySuccessful (entryAt g i).attrs 0) 0) 0 ==
      (entryAt g i).attrs) with
  | true =>
    have haeq : setEntryPriority (setEntryTries
        (setEntrySuccessful (entryAt g i).attrs 0) 0) 0 =
        (entryAt g i).attrs := by simpa using hEq
    have hres : applyEntryAttrs g i
        (setEntryPriority (setEntryTries
          (setEntrySuccessful (entryAt g i).attrs 0) 0) 0) =
        (g, GPT_SUCCESS) := by
      simp [applyEntryAttrs, hEq]
    rw [hres]
    rw [haeq] at hf1 hf2 hf3
    rw [hmir]
    exact ⟨hf1, hf2, hf3, hf1, hf2, hf3⟩
  | false =>
    have hne : setEntryPriority (setEntryTries
        (setEntrySuccessful (entryAt g i).attrs 0) 0) 0 ≠
        (entryAt g i).attrs := by simpa using hEq
    obtain ⟨h1, h2, _, _⟩ := applyEntryAttrs_changed g i _ hlt hmir hne
    rw [h1, h2]
    exact ⟨hf1, hf2, hf3, hf1, hf2, hf3⟩

/-! ## Lemmas about the kernel-selection session -/

theorem sessionState_shift (g : GptData) (k : Nat) :
    sessionState g (k + 1) =
      sessionState (gptNextKernelEntry g).1 k := by
  induction k with
  | zero => rfl
  | succ k ih => rw [sessionState, ih]; rfl

theorem sessionResult_shift (g : GptData) (k : Nat) :
    sessionResult g (k + 1) = sessionResult (gptNextKernelEntry g).1 k := by
  rw [sessionResult, sessionState_shift]; rfl

theorem foldl_option_mem {α : Type} (f : Option α → α → Option α)
    (hf : ∀ acc x, f acc x = acc ∨ f acc x = some x) :
    ∀ (l : List α) (acc : Option α) (j : α),
      l.foldl f acc = some j → j ∈ l ∨ acc = some j := by
  intro l
  induction l with
  | nil => intro acc j h; exact Or.inr h
  | cons x xs ih =>
    intro acc j h
    rw [List.foldl_cons] at h
    rcases ih (f acc x) j h with hmem | hacc
    · exact Or.inl (List.mem_cons_of_mem _ hmem)
    · rcases hf acc x with he | he
      · exact Or.inr (he ▸ hacc)
      · rw [he] at hacc
        exact Or.inl (List.mem_cons.mpr (Or.inl (Option.some.inj hacc).symm))

theorem foldl_option_isSome {α : Type} (f : Option α → α → Option α)
    (hf : ∀ acc x, acc.isSome → (f acc x).isSome) :
    ∀ (l : List α) (acc : Option α), acc.isSome → (l.foldl f acc).isSome := by
  intro l
  induction l with
  | nil => intro acc h; exact h
  | cons x xs ih => intro acc h; exact ih _ (hf acc x h)

theorem pickBest_mem {g : GptData} {l : List Nat} {j : Nat}
    (h : pickBest g l = some j) : j ∈ l := by
  have hf : ∀ (acc : Option Nat) (x : Nat),
      (fun best i =>
        match best with
        | none => some i
        | some b =>
          if getEntryPriority (entryAt g b).attrs <
              getEntryPriority (entryAt g i).attrs then some i
          else some b) acc x = acc ∨
      (fun best i =>
        match best with
        | none => some i
        | some b =>
          if getEntryPriority (entryAt g b).attrs <
              getEntryPriority (entryAt g i).attrs then some i
          else some b) acc x = some x := by
    intro acc x
    cases acc with
    | none => exact Or.inr rfl
    | some b =>
      dsimp only
      split
      · exact Or.inr rfl
      · exact Or.inl rfl
  rcases foldl_option_mem _ hf l none j h with hmem | habs
  · exact hmem
  · cases habs

theorem pickBest_isSome (g : GptData) (x : Nat) (xs : List Nat) :
    (pickBest g (x :: xs)).isSome := by
  rw [pickBest, List.foldl_cons]
  apply foldl_option_isSome
  · intro acc y hacc
    cases acc with
    | none => cases hacc
    | some b =>
      dsimp only
      split <;> rfl
  · rfl



theorem next_of_pick {g : GptData} {j : Nat}
    (hj : pickBest g (candidateIdxs g) = some j) :
    gptNextKernelEntry g =
      ({ g with current_kernel := some j, offered := j :: g.offered },
        some (j, (entryAt g j).starting_lba,
          (entryAt g j).ending_lba - (entryAt g j).starting_lba + 1)) := by
  simp [gptNextKernelEntry, hj]

theorem candidates_offered (g : GptData) (j : Nat) :
    candidateIdxs
      { g with current_kernel := some j, offered := j :: g.offered } =
      (candidateIdxs g).filter (fun x => !(x == j)) := by
  rw [candidateIdxs, candidateIdxs, List.filter_filter]
  apply List.filter_congr
  intro x _
  show (isKernelEntry (entryAt g x) && _ && _ &&
    !((j :: g.offered).contains x)) = _
  rw [List.contains_cons]
  cases hxj : (x == j) <;> cases g.offered.contains x <;>
    cases isKernelEntry (entryAt g x) <;> simp_all [entryAt]

theorem candidates_next {g : GptData} {j : Nat}
    (hj : pickBest g (candidateIdxs g) = some j) :
    candidateIdxs (gptNextKernelEntry g).1 =
      (candidateIdxs g).filter (fun x => !(x == j)) := by
  rw [next_of_pick hj]
  exact candidates_offered g j



theorem candidate_reached (n : Nat) :
    ∀ (g : GptData) (i : Nat), (candidateIdxs g).length ≤ n →
    i ∈ candidateIdxs g →
    ∃ k, (∀ m, m < k → sessionResult g m ≠ none) ∧
      sessionResult g k = some (i, (entryAt g i).starting_lba,
        (entryAt g i).ending_lba - (entryAt g i).starting_lba + 1) := by
  induction n with
  | zero =>
    intro g i hlen hi
    rw [Nat.le_zero, List.length_eq_zero] at hlen
    rw [hlen] at hi
    cases hi
  | succ n ih =>
    intro g i hlen hi
    obtain ⟨j, hj⟩ : ∃ j, pickBest g (candidateIdxs g) = some j := by
      cases hpb : pickBest g (candidateIdxs g) with
      | some j => exact ⟨j, rfl⟩
      | none =>
        exfalso
        cases hl : candidateIdxs g with
        | nil => rw [hl] at hi; cases hi
        | cons x xs =>
          have hs := pickBest_isSome g x xs
          rw [← hl, hpb] at hs
          cases hs
    by_cases hij : i = j
    · subst hij
      refine ⟨0, fun m hm => absurd hm (Nat.not_lt_zero m), ?_⟩
      show (gptNextKernelEntry g).2 = _
      rw [next_of_pick hj]
    · have hjmem : j ∈ candidateIdxs g := pickBest_mem hj
      have hfilter := candidates_next hj
      have hi' : i ∈ candidateIdxs (gptNextKernelEntry g).1 := by
        rw [hfilter]
        exact List.mem_filter.mpr ⟨hi, by simp [hij]⟩
      have hlen' : (candidateIdxs (gptNextKernelEntry g).1).length ≤ n := by
        rw [hfilter]
        have := length_filter_lt_of_mem hjmem
          (p := fun x => !(x == j)) (by simp)
        omega
      obtain ⟨k, hk1, hk2⟩ := ih (gptNextKernelEntry g).1 i hlen' hi'
      refine ⟨k + 1, ?_, ?_⟩
      · intro m hm
        cases m with
        | zero =>
          show (gptNextKernelEntry g).2 ≠ none
          rw [next_of_pick hj]
          simp
        | succ m =>
          rw [sessionResult_shift]
          exact hk1 m (by omega)
      · rw [sessionResult_shift, next_of_pick hj]
        rw [next_of_pick hj] at hk2
        dsimp only [entryAt] at hk2 ⊢
        exact hk2


theorem not_pow2_1536 : ∀ k : Nat, 2 ^ k ≠ 1536 := by
  intro k hk
  rcases Nat.lt_or_ge k 11 with hlt | hge
  · interval_cases k <;> simp_all
  · have h2 : (2 : Nat) ^ 11 ≤ 2 ^ k := Nat.pow_le_pow_right (by omega) hge
    have h3 : (2 : Nat) ^ 11 = 2048 := by norm_num
    omega

/-! ## The claims -/

/-- C1: For a table whose header-1 copy is corrupted while header-2 and both
entry-array copies are valid, SanityCheck returns success with valid_headers
= SECONDARY and valid_entries = BOTH; a subsequent Repair makes a following
SanityCheck report both headers valid (valid_headers = BOTH, valid_entries =
BOTH) and sets exactly the header-1 bit of the modified bitmask and no
other bit. -/
theorem claim_C1_header1_corrupt_sanity_repair :
    (gptSanityCheck header1CorruptTable).2 = GPT_SUCCESS ∧
    (gptSanityCheck header1CorruptTable).1.valid_headers = MASK_SECONDARY ∧
    (gptSanityCheck header1CorruptTable).1.valid_entries = MASK_BOTH ∧
    (gptRepair (gptSanityCheck header1CorruptTable).1).modified =
      GPT_MODIFIED_HEADER1 ∧
    (gptSanityCheck
      (gptRepair (gptSanityCheck header1CorruptTable).1)).2 = GPT_SUCCESS ∧
    (gptSanityCheck
      (gptRepair (gptSanityCheck header1CorruptTable).1)).1.valid_headers =
      MASK_BOTH ∧
    (gptSanityCheck
      (gptRepair (gptSanityCheck header1CorruptTable).1)).1.valid_entries =
      MASK_BOTH := by
  decide

/-- C2: For the validated table with four active successful kernels of
priorities A:3, B:4, X:0, Y:4 (indices 0, 1, 2, 3), successive
NextKernelEntry calls return B (start 134, size 99), then Y (start 334,
size 97), then A (start 34, size 100) — highest priority first, ties by
lower index — then "no valid kernel" with the current-kernel cursor at the
not-found sentinel, and every further call keeps returning "no valid
kernel" without re-offering any entry. -/
theorem claim_C2_priority_order_session :
    sessionResult prioTable 0 = some (1, 134, 99) ∧
    sessionResult prioTable 1 = some (3, 334, 97) ∧
    sessionResult prioTable 2 = some (0, 34, 100) ∧
    sessionResult prioTable 3 = none ∧
    (sessionState prioTable 4).current_kernel = none ∧
    sessionResult prioTable 4 = none ∧
    (sessionState prioTable 5).current_kernel = none := by
  decide
/-- C3 (counterexample): in the GetNextTriesTest table, entry 3 (Y) is of
kernel type with tries = 5 > 0 and is never offered (the session starts
with an empty offered set), yet the session returns X (index 2), then A
(index 0), then reports "no valid kernel" — so a kernel entry that is
active by the criterion of the claim (successful or tries > 0) and unoffered is
NOT returned before the first "no valid kernel": its priority is 0. -/
theorem claim_C3_counterexample :
    isKernelEntry (entryAt triesTable 3) = true ∧
    getEntryTries (entryAt triesTable 3).attrs = 5 ∧
    getEntryPriority (entryAt triesTable 3).attrs = 0 ∧
    triesTable.offered = [] ∧
    sessionResult triesTable 0 = some (2, 234, 98) ∧
    sessionResult triesTable 1 = some (0, 34, 100) ∧
    sessionResult triesTable 2 = none := by
  decide

/-- C3 (amended): for every table state, each kernel-type entry with
successful = 1 or tries > 0 AND priority > 0 that has not yet been offered
in the current session is returned by some NextKernelEntry call before the
first "no valid kernel" report; the call that returns it reports its start
location and the length end - start + 1. -/
theorem claim_C3_amended_candidates_returned (g : GptData) (i : Nat)
    (hk : isKernelEntry (entryAt g i) = true)
    (ha : getEntrySuccessful (entryAt g i).attrs = 1 ∨
      0 < getEntryTries (entryAt g i).attrs)
    (hp : 0 < getEntryPriority (entryAt g i).attrs)
    (ho : g.offered.contains i = false) :
    ∃ k, (∀ m, m < k → sessionResult g m ≠ none) ∧
      sessionResult g k = some (i, (entryAt g i).starting_lba,
        (entryAt g i).ending_lba - (entryAt g i).starting_lba + 1) := by
  have hlt := isKernelEntry_lt hk
  have hmem : i ∈ candidateIdxs g := by
    rw [candidateIdxs, List.mem_filter, List.mem_range]
    refine ⟨hlt, ?_⟩
    have ho2 : i ∉ g.offered := by simpa using ho
    rcases ha with ha | ha <;> simp [hk, ho2, ha, hp]
  exact candidate_reached (candidateIdxs g).length g i Nat.le.refl hmem

/-- C3 (witness): the amended theorem applied to entry 2 (X: not
successful, one try left, priority 4) of the GetNextTriesTest table. -/
theorem claim_C3_amended_witness :
    (isKernelEntry (entryAt triesTable 2) = true ∧
      0 < getEntryTries (entryAt triesTable 2).attrs ∧
      0 < getEntryPriority (entryAt triesTable 2).attrs ∧
      triesTable.offered.contains 2 = false) ∧
    (∃ k, (∀ m, m < k → sessionResult triesTable m ≠ none) ∧
      sessionResult triesTable k = some (2,
        (entryAt triesTable 2).starting_lba,
        (entryAt triesTable 2).ending_lba -
          (entryAt triesTable 2).starting_lba + 1)) :=
  ⟨⟨by decide, by decide, by decide, by decide⟩,
    claim_C3_amended_candidates_returned triesTable 2 (by decide)
      (Or.inr (by decide)) (by decide) (by decide)⟩
/-- C4: for any table with mirrored entry copies whose current entry is a
kernel entry: (a) if the entry has tries = 2 and successful = 0, a first
TRY update reduces tries to 1 keeping the priority, and a second TRY update
reduces tries to 0 and also clears the priority to 0; (b) a BAD update on a
successful entry leaves the table unchanged; (c) a BAD update on a
non-successful entry zeroes successful, tries and priority in both the
primary and the secondary entry copies. -/
theorem claim_C4_update_try_and_bad (g : GptData) (i : Nat)
    (hc : g.current_kernel = some i)
    (hk : isKernelEntry (entryAt g i) = true)
    (hmir : g.secondary_entries = g.primary_entries) :
    (getEntryTries (entryAt g i).attrs = 2 →
      getEntrySuccessful (entryAt g i).attrs = 0 →
      getEntryTries (entryAt
        (gptUpdateKernelEntry g GPT_UPDATE_ENTRY_TRY).1 i).attrs = 1 ∧
      getEntryPriority (entryAt
        (gptUpdateKernelEntry g GPT_UPDATE_ENTRY_TRY).1 i).attrs =
        getEntryPriority (entryAt g i).attrs ∧
      getEntryTries (entryAt
        (gptUpdateKernelEntry
          (gptUpdateKernelEntry g GPT_UPDATE_ENTRY_TRY).1
          GPT_UPDATE_ENTRY_TRY).1 i).attrs = 0 ∧
      getEntryPriority (entryAt
        (gptUpdateKernelEntry
          (gptUpdateKernelEntry g GPT_UPDATE_ENTRY_TRY).1
          GPT_UPDATE_ENTRY_TRY).1 i).attrs = 0) ∧
    (getEntrySuccessful (entryAt g i).attrs = 1 →
      (gptUpdateKernelEntry g GPT_UPDATE_ENTRY_BAD).1 = g) ∧
    (getEntrySuccessful (entryAt g i).attrs = 0 →
      getEntrySuccessful (entryAt
        (gptUpdateKernelEntry g GPT_UPDATE_ENTRY_BAD).1 i).attrs = 0 ∧
      getEntryTries (entryAt
        (gptUpdateKernelEntry g GPT_UPDATE_ENTRY_BAD).1 i).attrs = 0 ∧
      getEntryPriority (entryAt
        (gptUpdateKernelEntry g GPT_UPDATE_ENTRY_BAD).1 i).attrs = 0 ∧
      getEntrySuccessful ((gptUpdateKernelEntry g
        GPT_UPDATE_ENTRY_BAD).1.secondary_entries.getD i zeroEntry).attrs
        = 0 ∧
      getEntryTries ((gptUpdateKernelEntry g
        GPT_UPDATE_ENTRY_BAD).1.secondary_entries.getD i zeroEntry).attrs
        = 0 ∧
      getEntryPriority ((gptUpdateKernelEntry g
        GPT_UPDATE_ENTRY_BAD).1.secondary_entries.getD i zeroEntry).attrs
        = 0) := by
  refine ⟨?_, ?_, ?_⟩
  · intro ht2 hs0
    obtain ⟨g1c, g1mir, g1k, g1s, g1t, g1p⟩ :=
      update_try_spec g i 1 hc hk hmir hs0 (by omega)
    obtain ⟨_, _, _, _, g2t, g2p⟩ :=
      update_try_spec _ i 0 g1c g1k g1mir g1s (by omega)
    refine ⟨g1t, ?_, g2t, by simpa using g2p⟩
    rw [g1p, if_neg (by omega)]
  · intro hs1
    have := update_noop_of_successful g i GPT_UPDATE_ENTRY_BAD hc hk hs1
      (Or.inr rfl)
    exact congrArg Prod.fst this
  · intro hs0
    exact update_bad_spec g i hc hk hmir hs0

/-- C4 (witness): the theorem applied to the GptUpdateTest table with the
kernel at index 2 (X: priority 2, not successful, tries 2) current. -/
theorem claim_C4_witness :
    (updateTableAtX.current_kernel = some 2 ∧
      isKernelEntry (entryAt updateTableAtX 2) = true ∧
      updateTableAtX.secondary_entries = updateTableAtX.primary_entries) ∧
    ((getEntryTries (entryAt updateTableAtX 2).attrs = 2 →
      getEntrySuccessful (entryAt updateTableAtX 2).attrs = 0 →
      getEntryTries (entryAt
        (gptUpdateKernelEntry updateTableAtX GPT_UPDATE_ENTRY_TRY).1
        2).attrs = 1 ∧
      getEntryPriority (entryAt
        (gptUpdateKernelEntry updateTableAtX GPT_UPDATE_ENTRY_TRY).1
        2).attrs = getEntryPriority (entryAt updateTableAtX 2).attrs ∧
      getEntryTries (entryAt
        (gptUpdateKernelEntry
          (gptUpdateKernelEntry updateTableAtX GPT_UPDATE_ENTRY_TRY).1
          GPT_UPDATE_ENTRY_TRY).1 2).attrs = 0 ∧
      getEntryPriority (entryAt
        (gptUpdateKernelEntry
          (gptUpdateKernelEntry updateTableAtX GPT_UPDATE_ENTRY_TRY).1
          GPT_UPDATE_ENTRY_TRY).1 2).attrs = 0) ∧
    (getEntrySuccessful (entryAt updateTableAtX 2).attrs = 1 →
      (gptUpdateKernelEntry updateTableAtX GPT_UPDATE_ENTRY_BAD).1 =
        updateTableAtX) ∧
    (getEntrySuccessful (entryAt updateTableAtX 2).attrs = 0 →
      getEntrySuccessful (entryAt
        (gptUpdateKernelEntry updateTableAtX GPT_UPDATE_ENTRY_BAD).1
        2).attrs = 0 ∧
      getEntryTries (entryAt
        (gptUpdateKernelEntry updateTableAtX GPT_UPDATE_ENTRY_BAD).1
        2).attrs = 0 ∧
      getEntryPriority (entryAt
        (gptUpdateKernelEntry updateTableAtX GPT_UPDATE_ENTRY_BAD).1
        2).attrs = 0 ∧
      getEntrySuccessful ((gptUpdateKernelEntry updateTableAtX
        GPT_UPDATE_ENTRY_BAD).1.secondary_entries.getD 2 zeroEntry).attrs
        = 0 ∧
      getEntryTries ((gptUpdateKernelEntry updateTableAtX
        GPT_UPDATE_ENTRY_BAD).1.secondary_entries.getD 2 zeroEntry).attrs
        = 0 ∧
      getEntryPriority ((gptUpdateKernelEntry updateTableAtX
        GPT_UPDATE_ENTRY_BAD).1.secondary_entries.getD 2 zeroEntry).attrs
        = 0)) :=
  ⟨⟨rfl, by decide, rfl⟩,
    claim_C4_update_try_and_bad updateTableAtX 2 rfl (by decide) rfl⟩
/-- C5 (counterexample): a BAD update on the non-successful current kernel
entry B of the GptUpdateTest table changes the entry arrays, and the
modified bitmask becomes 0x0F — both header bits are set alongside the two
entries bits (the entry-array checksums held by the headers are rewritten) — so the
bitmask does not gain ONLY the entries bits as the claim states. -/
theorem claim_C5_counterexample :
    updateTableAtB.modified = 0 ∧
    (gptUpdateKernelEntry updateTableAtB
      GPT_UPDATE_ENTRY_BAD).1.primary_entries ≠
      updateTableAtB.primary_entries ∧
    (gptUpdateKernelEntry updateTableAtB GPT_UPDATE_ENTRY_BAD).1.modified
      = 15 ∧
    (15 : Nat) ≠ GPT_MODIFIED_ENTRIES1 ||| GPT_MODIFIED_ENTRIES2 ∧
    (15 : Nat) &&& (GPT_MODIFIED_HEADER1 ||| GPT_MODIFIED_HEADER2) ≠ 0 := by
  decide

/-- C5 (amended): for any table with mirrored entry copies and any update
type, UpdateKernelEntry keeps the two entry copies identical; when no byte
changes the modified bitmask is untouched (so an update that changes
nothing leaves modified at 0), and when the entries change the modified
bitmask gains exactly the two entries bits AND the two header bits (0x0F),
because the entry-array checksums of both headers are rewritten. -/
theorem claim_C5_amended_mirror_and_modified (g : GptData) (t : Nat)
    (hmir : g.secondary_entries = g.primary_entries) :
    (gptUpdateKernelEntry g t).1.secondary_entries =
      (gptUpdateKernelEntry g t).1.primary_entries ∧
    ((gptUpdateKernelEntry g t).1.primary_entries = g.primary_entries →
      (gptUpdateKernelEntry g t).1.modified = g.modified) ∧
    ((gptUpdateKernelEntry g t).1.primary_entries ≠ g.primary_entries →
      (gptUpdateKernelEntry g t).1.modified = g.modified ||| 15) := by
  cases hck : g.current_kernel with
  | none =>
    simp only [gptUpdateKernelEntry, hck]
    exact ⟨hmir, by simp, by simp⟩
  | some i =>
    cases hk : isKernelEntry (entryAt g i) with
    | false =>
      simp only [gptUpdateKernelEntry, hck, hk, Bool.not_false, if_true]
      exact ⟨hmir, by simp, by simp⟩
    | true =>
      have hlt := isKernelEntry_lt hk
      by_cases ht : t = GPT_UPDATE_ENTRY_TRY
      · simp only [gptUpdateKernelEntry, hck, hk, Bool.not_true, ht,
          Bool.false_eq_true, if_false, beq_self_eq_true, if_true]
        exact applyEntryAttrs_spec g i _ hmir hlt
      · by_cases hb : t = GPT_UPDATE_ENTRY_BAD
        · simp only [gptUpdateKernelEntry, hck, hk, Bool.not_true, ht, hb,
            Bool.false_eq_true, if_false, beq_self_eq_true, if_true,
            beq_iff_eq, if_neg ht]
          exact applyEntryAttrs_spec g i _ hmir hlt
        · simp only [gptUpdateKernelEntry, hck, hk, Bool.not_true,
            Bool.false_eq_true, if_false, beq_iff_eq, if_neg ht, if_neg hb]
          exact ⟨hmir, by simp, by simp⟩

/-- C5 (witness): the amended theorem applied to a BAD update on the
GptUpdateTest table with kernel B current (its copies are mirrored). -/
theorem claim_C5_amended_witness :
    (updateTableAtB.secondary_entries = updateTableAtB.primary_entries) ∧
    ((gptUpdateKernelEntry updateTableAtB
        GPT_UPDATE_ENTRY_BAD).1.secondary_entries =
      (gptUpdateKernelEntry updateTableAtB
        GPT_UPDATE_ENTRY_BAD).1.primary_entries ∧
    ((gptUpdateKernelEntry updateTableAtB
        GPT_UPDATE_ENTRY_BAD).1.primary_entries =
        updateTableAtB.primary_entries →
      (gptUpdateKernelEntry updateTableAtB GPT_UPDATE_ENTRY_BAD).1.modified
        = updateTableAtB.modified) ∧
    ((gptUpdateKernelEntry updateTableAtB
        GPT_UPDATE_ENTRY_BAD).1.primary_entries ≠
        updateTableAtB.primary_entries →
      (gptUpdateKernelEntry updateTableAtB GPT_UPDATE_ENTRY_BAD).1.modified
        = updateTableAtB.modified ||| 15)) :=
  ⟨rfl, claim_C5_amended_mirror_and_modified updateTableAtB
    GPT_UPDATE_ENTRY_BAD rfl⟩
/-- C6: when neither header copy passes CheckHeader (and the geometry
parameters are fine), SanityCheck returns the "invalid headers" error with
valid_headers = NONE and also forces valid_entries = NONE regardless of
what the entry arrays contain; Repair in this state changes nothing at all, and a
SanityCheck after it still reports "invalid headers" with both bitmasks
NONE and the modified bitmask still 0. -/
theorem claim_C6_no_valid_headers (g : GptData)
    (hp : checkParameters g.sector_bytes g.drive_sectors = GPT_SUCCESS)
    (h1 : checkHeaderValid g.primary_header false g.drive_sectors = false)
    (h2 : checkHeaderValid g.secondary_header true g.drive_sectors = false)
    (hm0 : g.modified = 0) :
    (gptSanityCheck g).2 = GPT_ERROR_INVALID_HEADERS ∧
    (gptSanityCheck g).1.valid_headers = MASK_NONE ∧
    (gptSanityCheck g).1.valid_entries = MASK_NONE ∧
    gptRepair (gptSanityCheck g).1 = (gptSanityCheck g).1 ∧
    (gptRepair (gptSanityCheck g).1).modified = 0 ∧
    (gptSanityCheck (gptRepair (gptSanityCheck g).1)).2 =
      GPT_ERROR_INVALID_HEADERS ∧
    (gptSanityCheck (gptRepair (gptSanityCheck g).1)).1.valid_headers =
      MASK_NONE ∧
    (gptSanityCheck (gptRepair (gptSanityCheck g).1)).1.valid_entries =
      MASK_NONE := by
  have hs : gptSanityCheck g =
      (withMasks g MASK_NONE MASK_NONE, GPT_ERROR_INVALID_HEADERS) := by
    simp [gptSanityCheck, withMasks, hp, h1, h2, MASK_NONE]
  have hr : gptRepair (gptSanityCheck g).1 = (gptSanityCheck g).1 := by
    rw [hs]
    simp [gptRepair, withMasks, MASK_NONE, MASK_PRIMARY, MASK_SECONDARY]
  have hs2 : gptSanityCheck (gptRepair (gptSanityCheck g).1) =
      gptSanityCheck g := by
    rw [hr, hs]
    simp [gptSanityCheck, withMasks, hp, h1, h2, MASK_NONE]
  refine ⟨by rw [hs], by rw [hs]; rfl, by rw [hs]; rfl, hr, ?_,
    by rw [hs2, hs], by rw [hs2, hs]; rfl, by rw [hs2, hs]; rfl⟩
  rw [hr, hs]
  exact hm0

/-- C6 (witness): the theorem applied to the test table with both header
signatures corrupted (the SanityCheckTest "completely busted headers"
scenario). -/
theorem claim_C6_witness :
    (checkParameters bothHeadersCorruptTable.sector_bytes
        bothHeadersCorruptTable.drive_sectors = GPT_SUCCESS ∧
      checkHeaderValid bothHeadersCorruptTable.primary_header false
        bothHeadersCorruptTable.drive_sectors = false ∧
      checkHeaderValid bothHeadersCorruptTable.secondary_header true
        bothHeadersCorruptTable.drive_sectors = false ∧
      bothHeadersCorruptTable.modified = 0) ∧
    ((gptSanityCheck bothHeadersCorruptTable).2 =
      GPT_ERROR_INVALID_HEADERS ∧
    (gptSanityCheck bothHeadersCorruptTable).1.valid_headers = MASK_NONE ∧
    (gptSanityCheck bothHeadersCorruptTable).1.valid_entries = MASK_NONE ∧
    gptRepair (gptSanityCheck bothHeadersCorruptTable).1 =
      (gptSanityCheck bothHeadersCorruptTable).1 ∧
    (gptRepair (gptSanityCheck bothHeadersCorruptTable).1).modified = 0 ∧
    (gptSanityCheck (gptRepair
      (gptSanityCheck bothHeadersCorruptTable).1)).2 =
      GPT_ERROR_INVALID_HEADERS ∧
    (gptSanityCheck (gptRepair
      (gptSanityCheck bothHeadersCorruptTable).1)).1.valid_headers =
      MASK_NONE ∧
    (gptSanityCheck (gptRepair
      (gptSanityCheck bothHeadersCorruptTable).1)).1.valid_entries =
      MASK_NONE) :=
  ⟨⟨by decide, by decide, by decide, rfl⟩,
    claim_C6_no_valid_headers bothHeadersCorruptTable (by decide)
      (by decide) (by decide) rfl⟩

/-- C7 (counterexample): the primary test header passes CheckHeader and
has a zero reserved field, but replacing the reserved field by 0x12345678
— with the header checksum recomputed over the changed fields, exactly as
ReservedFieldsTest does — makes CheckHeader return 1 (invalid): the
program DOES check the reserved field, so changing it does not "still
yield a valid result" as the claim states. -/
theorem claim_C7_counterexample :
    checkHeader buildTestGptData.primary_header false 467 = 0 ∧
    buildTestGptData.primary_header.reserved_zero = 0 ∧
    checkHeader
      { buildTestGptData.primary_header with
        reserved_zero := 305419896,
        header_crc32 := headerCrc
          { buildTestGptData.primary_header with
            reserved_zero := 305419896 } } false 467 = 1 := by
  decide

/-- C7 (amended): CheckHeader does check the reserved field of the header,
by requiring it to be zero: for every header that passes all checks,
replacing the reserved field by any NONZERO value (with the header
checksum recomputed over the changed fields) yields an invalid result,
while rewriting it with zero (checksum likewise recomputed) keeps the
header valid. -/
theorem claim_C7_amended_reserved_is_checked (h : GptHeader) (sec : Bool)
    (n r : Nat) (hv : checkHeader h sec n = 0) :
    (r ≠ 0 →
      checkHeader
        { h with
          reserved_zero := r,
          header_crc32 := headerCrc { h with reserved_zero := r } } sec n
        = 1) ∧
    checkHeader
      { h with
        reserved_zero := 0,
        header_crc32 := headerCrc { h with reserved_zero := 0 } } sec n
      = 0 := by
  have hval : checkHeaderValid h sec n = true := by
    cases hbv : checkHeaderValid h sec n
    · rw [checkHeader, hbv] at hv
      simp at hv
    · rfl
  constructor
  · intro hr
    cases hb : checkHeaderValid
        { h with
          reserved_zero := r,
          header_crc32 := headerCrc { h with reserved_zero := r } } sec n
    · rw [checkHeader, hb]
      simp
    · exfalso
      simp only [checkHeaderValid, Bool.and_eq_true] at hb
      obtain ⟨⟨⟨⟨⟨⟨⟨⟨⟨⟨⟨_, _⟩, _⟩, _⟩, _⟩, c6⟩, _⟩, _⟩, _⟩, _⟩, _⟩, _⟩
        := hb
      exact hr (by simpa using c6)
  · rw [checkHeader, if_pos ?_]
    simp only [checkHeaderValid, Bool.and_eq_true] at hval ⊢
    obtain ⟨⟨⟨⟨⟨⟨⟨⟨⟨⟨⟨c1, c2⟩, c3⟩, c4⟩, c5⟩, c6⟩, c7⟩, c8⟩, c9⟩, c10⟩,
      c11⟩, c12⟩ := hval
    refine ⟨⟨⟨⟨⟨⟨⟨⟨⟨⟨⟨c1, c2⟩, c3⟩, c4⟩, ?_⟩, ?_⟩, c7⟩, c8⟩, c9⟩, c10⟩,
      c11⟩, c12⟩
    · exact beq_self_eq_true _
    · exact beq_self_eq_true _

/-- C7 (witness): the amended theorem applied to the primary test header
with the reserved field replaced by 0x12345678 (rejected) and by zero
(still accepted). -/
theorem claim_C7_amended_witness :
    checkHeader buildTestGptData.primary_header false 467 = 0 ∧
    (((305419896 : Nat) ≠ 0 →
      checkHeader
        { buildTestGptData.primary_header with
          reserved_zero := 305419896,
          header_crc32 := headerCrc
            { buildTestGptData.primary_header with
              reserved_zero := 305419896 } } false 467 = 1) ∧
    checkHeader
      { buildTestGptData.primary_header with
        reserved_zero := 0,
        header_crc32 := headerCrc
          { buildTestGptData.primary_header with
            reserved_zero := 0 } } false 467 = 0) :=
  ⟨by decide, claim_C7_amended_reserved_is_checked
    buildTestGptData.primary_header false 467 305419896 (by decide)⟩

/-- C8 (counterexample): the flash geometry with 512-byte sectors, page
size 1536 = 3*512 and block size 4608 = 3*1536 is accepted by
MtdCheckParameters with success (it is the ParameterTests row
{512, N, 3*512, 9*512, GPT_SUCCESS}), although 1536 is not a power of two
— so the check does not reject every geometry whose page size is not a
power of two, contrary to the claim. -/
theorem claim_C8_counterexample :
    mtdCheckParameters ⟨512, 467, 1536, 4608⟩ = GPT_SUCCESS ∧
    (∀ k : Nat, 2 ^ k ≠ 1536) :=
  ⟨by decide, not_pow2_1536⟩

/-- C8 (amended): for 512-byte sectors, MtdCheckParameters accepts a flash
geometry exactly when the page byte size is a multiple of the sector size
and the block byte size is a multiple of the page size; every rejected
geometry is rejected with the "invalid flash geometry" error (the check
reads only the geometry parameters, never header content). -/
theorem claim_C8_amended_multiple_geometry (m : MtdParams)
    (hs : m.sector_bytes = 512) :
    (mtdCheckParameters m = GPT_SUCCESS ↔
      (m.flash_page_bytes % m.sector_bytes = 0 ∧
       m.flash_block_bytes % m.flash_page_bytes = 0)) ∧
    (mtdCheckParameters m ≠ GPT_SUCCESS →
      mtdCheckParameters m = GPT_ERROR_INVALID_FLASH_GEOMETRY) := by
  rw [mtdCheckParameters, hs]
  simp only [bne_self_eq_false, Bool.false_eq_true, if_false, bne_iff_ne,
    ne_eq, ite_not]
  by_cases hpage : m.flash_page_bytes % 512 = 0 <;>
    by_cases hblock : m.flash_block_bytes % m.flash_page_bytes = 0 <;>
      simp [hpage, hblock, GPT_SUCCESS, GPT_ERROR_INVALID_FLASH_GEOMETRY]

/-- C8 (witness): the amended theorem applied to the accepted non-power-of-
two geometry (page 1536, block 4608) of ParameterTests. -/
theorem claim_C8_amended_witness :
    ((⟨512, 467, 1536, 4608⟩ : MtdParams).sector_bytes = 512) ∧
    ((mtdCheckParameters ⟨512, 467, 1536, 4608⟩ = GPT_SUCCESS ↔
      ((1536 : Nat) % 512 = 0 ∧ (4608 : Nat) % 1536 = 0)) ∧
    (mtdCheckParameters ⟨512, 467, 1536, 4608⟩ ≠ GPT_SUCCESS →
      mtdCheckParameters ⟨512, 467, 1536, 4608⟩ =
        GPT_ERROR_INVALID_FLASH_GEOMETRY)) :=
  ⟨rfl, claim_C8_amended_multiple_geometry ⟨512, 467, 1536, 4608⟩ rfl⟩

/-- C9: for CRC-valid entry arrays placed inside the usable region of the
test header, two active entries with ranges [100,199] and [199,299]
(shared boundary) make CheckEntries report the end-overlap error; two
active entries with ranges [100,199] and [100,100] (identical start) make
it report the start-overlap error; and marking the second of the
boundary-sharing entries inactive (zero type) makes the check succeed even
though its stale range still overlaps. -/
theorem claim_C9_overlap_classification :
    checkEntries (overlapPairTable true 100 199 true 199 299).primary_entries
      (overlapPairTable true 100 199 true 199 299).primary_header =
      GPT_ERROR_END_LBA_OVERLAP ∧
    checkEntries (overlapPairTable true 100 199 true 100 100).primary_entries
      (overlapPairTable true 100 199 true 100 100).primary_header =
      GPT_ERROR_START_LBA_OVERLAP ∧
    checkEntries
      (overlapPairTable true 100 199 false 199 299).primary_entries
      (overlapPairTable true 100 199 false 199 299).primary_header =
      GPT_SUCCESS := by
  decide
/-- C10: when both header copies individually pass CheckHeader but their
shared fields differ — as after a partial update where header-1/entries-1
and header-2/entries-2 are each self-consistent but different — SanityCheck
treats the primary copy as authoritative: it returns success with
valid_headers = PRIMARY and (the secondary entries differing relative to
the primary header) valid_entries = PRIMARY; Repair then overwrites the
secondary copies from the primary (patching the copy-specific header
fields) and sets exactly the secondary modified bits (header-2 and
entries-2). -/
theorem claim_C10_primary_authoritative (g : GptData)
    (hp : checkParameters g.sector_bytes g.drive_sectors = GPT_SUCCESS)
    (h1 : checkHeaderValid g.primary_header false g.drive_sectors = true)
    (h2 : checkHeaderValid g.secondary_header true g.drive_sectors = true)
    (hdiff : headerFieldsSame g.primary_header g.secondary_header = false)
    (he1 : checkEntries g.primary_entries g.primary_header = GPT_SUCCESS)
    (hself : checkEntries g.secondary_entries g.secondary_header =
      GPT_SUCCESS)
    (he2 : checkEntries g.secondary_entries g.primary_header ≠ GPT_SUCCESS)
    (hm0 : g.modified = 0) :
    (gptSanityCheck g).2 = GPT_SUCCESS ∧
    (gptSanityCheck g).1.valid_headers = MASK_PRIMARY ∧
    (gptSanityCheck g).1.valid_entries = MASK_PRIMARY ∧
    (gptRepair (gptSanityCheck g).1).secondary_header =
      patchAsSecondary g.primary_header g.drive_sectors ∧
    (gptRepair (gptSanityCheck g).1).secondary_entries =
      g.primary_entries ∧
    (gptRepair (gptSanityCheck g).1).primary_header = g.primary_header ∧
    (gptRepair (gptSanityCheck g).1).primary_entries = g.primary_entries ∧
    (gptRepair (gptSanityCheck g).1).modified =
      (GPT_MODIFIED_HEADER2 ||| GPT_MODIFIED_ENTRIES2) := by
  have _hself := hself
  have he2f : (checkEntries g.secondary_entries g.primary_header ==
      GPT_SUCCESS) = false := by simpa using he2
  have hs : gptSanityCheck g =
      (withMasks g MASK_PRIMARY MASK_PRIMARY, GPT_SUCCESS) := by
    simp [gptSanityCheck, withMasks, hp, h1, h2, hdiff, he1, he2f,
      MASK_NONE, MASK_PRIMARY, MASK_SECONDARY, MASK_BOTH]
  refine ⟨?_, ?_, ?_, ?_, ?_, ?_, ?_, ?_⟩ <;>
    · rw [hs]
      try simp [gptRepair, withMasks, MASK_PRIMARY, MASK_SECONDARY, hm0,
        GPT_MODIFIED_HEADER2, GPT_MODIFIED_ENTRIES2]

/-- C10 (witness): the theorem applied to the partial-update table, where
both header/entry pairs are self-consistent but the secondary entry array
differs from the primary. -/
theorem claim_C10_witness :
    (checkParameters mismatchedPairTable.sector_bytes
        mismatchedPairTable.drive_sectors = GPT_SUCCESS ∧
      checkHeaderValid mismatchedPairTable.primary_header false
        mismatchedPairTable.drive_sectors = true ∧
      checkHeaderValid mismatchedPairTable.secondary_header true
        mismatchedPairTable.drive_sectors = true ∧
      headerFieldsSame mismatchedPairTable.primary_header
        mismatchedPairTable.secondary_header = false ∧
      checkEntries mismatchedPairTable.primary_entries
        mismatchedPairTable.primary_header = GPT_SUCCESS ∧
      checkEntries mismatchedPairTable.secondary_entries
        mismatchedPairTable.secondary_header = GPT_SUCCESS ∧
      checkEntries mismatchedPairTable.secondary_entries
        mismatchedPairTable.primary_header ≠ GPT_SUCCESS ∧
      mismatchedPairTable.modified = 0) ∧
    ((gptSanityCheck mismatchedPairTable).2 = GPT_SUCCESS ∧
    (gptSanityCheck mismatchedPairTable).1.valid_headers = MASK_PRIMARY ∧
    (gptSanityCheck mismatchedPairTable).1.valid_entries = MASK_PRIMARY ∧
    (gptRepair (gptSanityCheck mismatchedPairTable).1).secondary_header =
      patchAsSecondary mismatchedPairTable.primary_header
        mismatchedPairTable.drive_sectors ∧
    (gptRepair (gptSanityCheck mismatchedPairTable).1).secondary_entries =
      mismatchedPairTable.primary_entries ∧
    (gptRepair (gptSanityCheck mismatchedPairTable).1).primary_header =
      mismatchedPairTable.primary_header ∧
    (gptRepair (gptSanityCheck mismatchedPairTable).1).primary_entries =
      mismatchedPairTable.primary_entries ∧
    (gptRepair (gptSanityCheck mismatchedPairTable).1).modified =
      (GPT_MODIFIED_HEADER2 ||| GPT_MODIFIED_ENTRIES2)) :=
  ⟨⟨by decide, by decide, by decide, by decide, by decide, by decide,
      by decide, rfl⟩,
    claim_C10_primary_authoritative mismatchedPairTable (by decide)
      (by decide) (by decide) (by decide) (by decide) (by decide)
      (by decide) rfl⟩

end Cgptlib
